import Mathlib

/-!
Verification of the Webauthz Express resource middleware (`src/main.js`).

The middleware inspects the `Authorization` header of a request, classifies
it, optionally calls the pluggable validator `plugin.checkToken`, applies the
expiry policy, and exposes the resulting authorization record together with
`isPermitted` and the `header`/`empty`/`json`/`html` response helpers.

The embedding below is a direct shallow translation of the JavaScript:
  * the ECMAScript string primitives the middleware uses
    (`toLowerCase`, `startsWith`, `substr`, `trim`, split on space, `join`,
    `encodeURIComponent`) are modelled by structurally recursive functions
    on the character list of a string, so every definition evaluates by
    kernel reduction;
  * `TokenInfo` models the attribute object returned by the validator, with
    the seven attribute names the middleware copies onto `req.webauthz`
    (`type`, `client_id`, `realm`, `scope`, `not_after`, `user_id`,
    `error`). String-valued attributes are `Option String`
    (`none` = `undefined`); `not_after` is an `Option JsValue` so the
    `typeof not_after === number` test of the source is representable;
  * `AuthHeader` models the `Authorization` request header: missing, present but
    not a string, or a string;
  * `extractCredential` models lines 117-127 of the source (classification
    of the header and extraction of the bearer token input);
  * `middlewareAuth` models lines 110-148: it returns the authorization
    record together with the list of arguments passed to
    `plugin.checkToken` (so the number of validator invocations is
    observable) and the list of error-level log messages emitted.
    Rejections and exceptions of the validator are modelled by
    `ValidatorOutcome.fail`; the embedding is a total function, reflecting
    that the `try/catch` lets no exception escape the middleware;
  * `isPermitted` models lines 230-254; JavaScript falsiness of
    `authorization.scope` for strings means `none` or the empty string;
  * `headerOp` models the `header` helper of lines 164-182, returning the
    response status together with the optional `WWW-Authenticate` value.
-/

/-- ASCII lowercasing of one character, as `toLowerCase` acts on the
characters relevant to the `bearer ` scheme test. -/
def jsToLowerChar (c : Char) : Char :=
  if 65 ≤ c.toNat && c.toNat ≤ 90 then Char.ofNat (c.toNat + 32) else c

/-- ECMAScript `toLowerCase` on the characters of a string. -/
def jsToLower (s : String) : String :=
  String.mk (s.data.map jsToLowerChar)

/-- Character-list core of ECMAScript `startsWith`. -/
def jsStartsWithChars : List Char → List Char → Bool
  | _, [] => true
  | [], _ :: _ => false
  | c :: cs, p :: ps => c == p && jsStartsWithChars cs ps

/-- ECMAScript `s.startsWith(pre)`. -/
def jsStartsWith (s pre : String) : Bool :=
  jsStartsWithChars s.data pre.data

/-- ECMAScript `s.substr(n)`: the string without its first `n`
characters. -/
def jsSubstrFrom (s : String) (n : Nat) : String :=
  String.mk (s.data.drop n)

/-- The whitespace characters ECMAScript `trim` removes, restricted to the
ASCII whitespace that can occur around a bearer token. -/
def jsIsWhitespace (c : Char) : Bool :=
  c == ' ' || c == '\t' || c == '\n' || c == '\r'

/-- ECMAScript `s.trim()`: strip leading and trailing whitespace. -/
def jsTrim (s : String) : String :=
  String.mk (((s.data.dropWhile jsIsWhitespace).reverse.dropWhile
    jsIsWhitespace).reverse)

/-- Character-list core of the ECMAScript split on a single space: empty separators are
kept, and the empty string splits to `[""]`. -/
def jsSplitSpaceChars : List Char → List String
  | [] => [""]
  | c :: cs =>
      let rest := jsSplitSpaceChars cs
      if c == ' ' then "" :: rest
      else
        match rest with
        | r :: rs => (String.singleton c ++ r) :: rs
        | [] => [String.singleton c]

/-- ECMAScript split of a string on the single-space separator. -/
def jsSplitSpace (s : String) : List String :=
  jsSplitSpaceChars s.data

/-- ECMAScript join of an array with the single-space separator. -/
def jsJoinSpace : List String → String
  | [] => ""
  | [x] => x
  | x :: y :: xs => x ++ " " ++ jsJoinSpace (y :: xs)

/-- Concatenation of a list of strings. -/
def concatAll : List String → String
  | [] => ""
  | x :: xs => x ++ concatAll xs

/-- A JavaScript value as far as the middleware inspects it with
the typeof-number test: a number, or anything else. -/
inductive JsValue where
  | num (n : Int)
  | other
  deriving Repr, DecidableEq

/-- The validated token attributes returned by `plugin.checkToken`, and
equally the shape of the `authorization` record the middleware builds:
exactly the seven attributes copied onto `req.webauthz`. `none` stands for
an absent (`undefined`) attribute. -/
structure TokenInfo where
  type : Option String := none
  client_id : Option String := none
  realm : Option String := none
  scope : Option String := none
  not_after : Option JsValue := none
  user_id : Option String := none
  error : Option String := none
  deriving Repr, DecidableEq

/-- The authorization record `\x7b error: tag \x7d` built in the error
branches of the middleware: every attribute absent except `error`. -/
def errResult (tag : String) : TokenInfo :=
  { error := some tag }

/-- The value the middleware reads for the `Authorization` header: absent, present but not a
string, or a string. -/
inductive AuthHeader where
  | missing
  | nonString
  | str (s : String)
  deriving Repr, DecidableEq

/-- Classification of the `Authorization` header by the middleware. -/
inductive ExtractResult where
  | absent
  | malformed
  | token (tokenInput : String)
  deriving Repr, DecidableEq

/-- Lines 117-127 of the source: a non-string header is `absent`
(`authorization-header-not-found`); a string not starting case-insensitively
with `bearer ` is `malformed` (`authorization-header-not-bearer`); otherwise
the token input is the header after the 7-character scheme prefix, trimmed. -/
def extractCredential (h : AuthHeader) : ExtractResult :=
  match h with
  | AuthHeader.missing => ExtractResult.absent
  | AuthHeader.nonString => ExtractResult.absent
  | AuthHeader.str s =>
      if ! (jsStartsWith (jsToLower s) "bearer ") then
        ExtractResult.malformed
      else
        ExtractResult.token (jsTrim (jsSubstrFrom s "bearer ".length))

/-- Outcome of `await plugin.checkToken(tokenInput)`: either the token-info
object, or a rejection/exception (collapsed into one opaque case, since the
middleware catches every `err` alike). -/
inductive ValidatorOutcome where
  | ok (tokenInfo : TokenInfo)
  | fail
  deriving Repr

/-- The expiry test of line 134:
`not_after` is a number and `Date.now()` exceeds it. -/
def isExpired (now : Int) (t : TokenInfo) : Bool :=
  match t.not_after with
  | some (JsValue.num n) => decide (now > n)
  | _ => false

/-- Observable outcome of one middleware run: the authorization record, the
arguments passed to `plugin.checkToken` (in order), and the error-level log
messages emitted. -/
structure MwOutcome where
  auth : TokenInfo
  checkTokenCalls : List String
  errorLog : List String
  deriving Repr

/-- Lines 129-146 of the source: the `try/catch` around the validator call
and the expiry check. -/
def handleToken (checkToken : String → ValidatorOutcome) (now : Int)
    (tokenInput : String) : MwOutcome :=
  match checkToken tokenInput with
  | ValidatorOutcome.ok tokenInfo =>
      if isExpired now tokenInfo then
        { auth := errResult "token-expired",
          checkTokenCalls := [tokenInput], errorLog := [] }
      else
        { auth := tokenInfo,
          checkTokenCalls := [tokenInput], errorLog := [] }
  | ValidatorOutcome.fail =>
      { auth := errResult "invalid-token",
        checkTokenCalls := [tokenInput],
        errorLog := ["middleware: valid token"] }

/-- Lines 110-148 of the source: the per-request authorization pipeline.
`now` stands for `Date.now()` at the evaluation instant. -/
def middlewareAuth (checkToken : String → ValidatorOutcome) (now : Int)
    (h : AuthHeader) : MwOutcome :=
  match extractCredential h with
  | ExtractResult.absent =>
      { auth := errResult "authorization-header-not-found",
        checkTokenCalls := [], errorLog := [] }
  | ExtractResult.malformed =>
      { auth := errResult "authorization-header-not-bearer",
        checkTokenCalls := [], errorLog := [] }
  | ExtractResult.token tokenInput => handleToken checkToken now tokenInput

/-- Lines 230-254 of the source: `isPermitted(...scope)` over the bound
`requiredScopeList` and the request's authorization record. A `scope`
attribute that is absent or the empty string is falsy in JavaScript, so
`if (!authorization.scope) return false` fires for both. -/
def isPermitted (requiredScopeList : List String) (authorization : TokenInfo)
    (scope : List String) : Bool :=
  let checkScopeList := if scope.length > 0 then scope else requiredScopeList
  match authorization.scope with
  | none => false
  | some s =>
      if s = "" then false
      else
        let granted := jsSplitSpace s
        checkScopeList.all (fun v => granted.contains v)

/-- Uppercase hexadecimal digit, as emitted by `encodeURIComponent`. -/
def hexDigitChar (n : Nat) : Char :=
  if n < 10 then Char.ofNat (48 + n) else Char.ofNat (55 + n)

/-- One percent-escaped byte, e.g. 32 becomes `%20`. -/
def percentEncodeByte (b : Nat) : String :=
  String.mk ['%', hexDigitChar (b / 16), hexDigitChar (b % 16)]

/-- UTF-8 encoding of a code point, as a list of byte values. -/
def utf8Bytes (n : Nat) : List Nat :=
  if n < 128 then [n]
  else if n < 2048 then [192 + n / 64, 128 + n % 64]
  else if n < 65536 then [224 + n / 4096, 128 + n / 64 % 64, 128 + n % 64]
  else [240 + n / 262144, 128 + n / 4096 % 64, 128 + n / 64 % 64, 128 + n % 64]

/-- The code points `encodeURIComponent` leaves unescaped: ASCII letters,
digits, and `- _ . ! ~ * ( )` together with the apostrophe (code 39). -/
def isUnreservedCode (n : Nat) : Bool :=
  (65 ≤ n && n ≤ 90) || (97 ≤ n && n ≤ 122) || (48 ≤ n && n ≤ 57) ||
  n == 45 || n == 95 || n == 46 || n == 33 || n == 126 ||
  n == 42 || n == 39 || n == 40 || n == 41

/-- ECMAScript `encodeURIComponent`: unreserved code points pass through,
every other code point is UTF-8 percent-escaped with uppercase hex. -/
def encodeURIComponent (s : String) : String :=
  concatAll (s.data.map (fun c =>
    if isUnreservedCode c.toNat then String.singleton c
    else concatAll ((utf8Bytes c.toNat).map percentEncodeByte)))

/-- The configuration the `header` helper reads: `realm` (default
`Webauthz`), `path` (default `/`), and the optional
`webauthz_discovery_uri` (absent when not configured). -/
structure Config where
  realm : String := "Webauthz"
  path : String := "/"
  webauthz_discovery_uri : Option String := none
  deriving Repr

/-- Lines 164-182 of the source: `req.webauthz.header()`. Returns the
response status it sets (always 401) and the `WWW-Authenticate` value it
sets, `none` when no `webauthz_discovery_uri` is configured. -/
def headerOp (cfg : Config) (requiredScopeList : List String) :
    Nat × Option String :=
  (401,
    match cfg.webauthz_discovery_uri with
    | none => none
    | some d =>
        some ("Bearer realm=" ++ encodeURIComponent cfg.realm ++
          ", scope=" ++ encodeURIComponent (jsJoinSpace requiredScopeList) ++
          ", webauthz_discovery_uri=" ++ encodeURIComponent d ++
          ", path=" ++ encodeURIComponent cfg.path))

/-- Unfolding lemma: once extraction yields a token input, the middleware is
the token-handling phase on that input. -/
theorem middlewareAuth_token (v : String → ValidatorOutcome) (now : Int)
    (h : AuthHeader) (tok : String)
    (hx : extractCredential h = ExtractResult.token tok) :
    middlewareAuth v now h = handleToken v now tok := by
  unfold middlewareAuth
  rw [hx]

/-- Unfolding lemma: validator failure branch of the token phase. -/
theorem handleToken_fail (v : String → ValidatorOutcome) (now : Int)
    (tok : String) (hv : v tok = ValidatorOutcome.fail) :
    handleToken v now tok =
      { auth := errResult "invalid-token", checkTokenCalls := [tok],
        errorLog := ["middleware: valid token"] } := by
  unfold handleToken
  rw [hv]

/-- Unfolding lemma: expired-token branch of the token phase. -/
theorem handleToken_expired (v : String → ValidatorOutcome) (now : Int)
    (tok : String) (t : TokenInfo) (hv : v tok = ValidatorOutcome.ok t)
    (he : isExpired now t = true) :
    handleToken v now tok =
      { auth := errResult "token-expired", checkTokenCalls := [tok],
        errorLog := [] } := by
  unfold handleToken
  rw [hv]
  simp [he]

/-- Unfolding lemma: valid-token branch of the token phase. -/
theorem handleToken_valid (v : String → ValidatorOutcome) (now : Int)
    (tok : String) (t : TokenInfo) (hv : v tok = ValidatorOutcome.ok t)
    (he : isExpired now t = false) :
    handleToken v now tok =
      { auth := t, checkTokenCalls := [tok], errorLog := [] } := by
  unfold handleToken
  rw [hv]
  simp [he]

/-- C1: for a Decision Context whose authorization carries a granted
(non-empty) scope string and a non-empty check-list — the explicit
arguments when given, the bound required-scope list otherwise —
`isPermitted` returns true iff every name of the check-list is a member of
the list obtained by splitting the granted scope string on spaces. -/
theorem isPermitted_iff_subset_of_granted (rsl l : List String)
    (auth : TokenInfo) (s : String)
    (hs : auth.scope = some s) (hne : s ≠ "")
    (hl : (if l.length > 0 then l else rsl) ≠ []) :
    isPermitted rsl auth l = true ↔
      ∀ v ∈ (if l.length > 0 then l else rsl), v ∈ jsSplitSpace s := by
  unfold isPermitted
  rw [hs]
  simp [hne, List.all_eq_true]

/-- Witness for C1: granted scope string `calendar contacts` makes the
check-list `calendar, contacts` permitted and `calendar, admin` denied, and
with a bound required list `calendar` the zero-argument call is permitted. -/
theorem isPermitted_iff_subset_of_granted_witness :
    isPermitted [] { scope := some "calendar contacts" }
        ["calendar", "contacts"] = true ∧
    isPermitted [] { scope := some "calendar contacts" }
        ["calendar", "admin"] = false ∧
    isPermitted ["calendar"] { scope := some "calendar contacts" } [] = true :=
  ⟨(isPermitted_iff_subset_of_granted [] ["calendar", "contacts"]
      { scope := some "calendar contacts" } "calendar contacts" rfl
      (by decide) (by decide)).mpr (by decide),
   by
    have := (isPermitted_iff_subset_of_granted [] ["calendar", "admin"]
      { scope := some "calendar contacts" } "calendar contacts" rfl
      (by decide) (by decide))
    revert this
    decide,
   (isPermitted_iff_subset_of_granted ["calendar"] []
      { scope := some "calendar contacts" } "calendar contacts" rfl
      (by decide) (by decide)).mpr (by decide)⟩

/-- C2 counterexample: with nothing bound and no arguments, `isPermitted()`
is not true regardless of the authorization result — on the request without
an `Authorization` header it returns false. -/
theorem isPermitted_noScopes_not_vacuous :
    isPermitted []
      ((middlewareAuth (fun _ => ValidatorOutcome.fail) 0
        AuthHeader.missing).auth) [] = false := rfl

/-- C2 amended: with nothing bound and no arguments, `isPermitted()`
returns true exactly when the authorization result carries a non-empty
granted scope string, and false (not true) when the scope attribute is
absent or empty. -/
theorem isPermitted_vacuous_iff (auth : TokenInfo) :
    isPermitted [] auth [] = true ↔ ∃ s, auth.scope = some s ∧ s ≠ "" := by
  cases hs : auth.scope with
  | none => simp [isPermitted, hs]
  | some s =>
      by_cases h0 : s = ""
      · subst h0
        constructor
        · intro hp
          exact absurd hp (by simp [isPermitted, hs])
        · rintro ⟨s', hs', hne⟩
          cases hs'
          exact absurd rfl hne
      · constructor
        · intro _
          exact ⟨s, rfl, h0⟩
        · intro _
          simp [isPermitted, hs, h0]

/-- C3: a validator success whose `not_after` is a number strictly below
the current time yields the `token-expired` authorization, on which every
non-empty check-list is denied; when `not_after` is absent, non-numeric, or
not strictly below the current time, the authorization is the token info
of the validator with all its attributes. -/
theorem expiry_policy (v : String → ValidatorOutcome) (now : Int)
    (t : TokenInfo) (h : AuthHeader) (tok : String)
    (hx : extractCredential h = ExtractResult.token tok)
    (hv : v tok = ValidatorOutcome.ok t) :
    (∀ n : Int, t.not_after = some (JsValue.num n) → n < now →
      (middlewareAuth v now h).auth = errResult "token-expired" ∧
      ∀ rsl l, l ≠ [] →
        isPermitted rsl (middlewareAuth v now h).auth l = false) ∧
    (t.not_after = none → (middlewareAuth v now h).auth = t) ∧
    (t.not_after = some JsValue.other → (middlewareAuth v now h).auth = t) ∧
    (∀ n : Int, t.not_after = some (JsValue.num n) → ¬ n < now →
      (middlewareAuth v now h).auth = t) := by
  rw [middlewareAuth_token v now h tok hx]
  refine ⟨?_, ?_, ?_, ?_⟩
  · intro n hn hlt
    have he : isExpired now t = true := by
      unfold isExpired
      rw [hn]
      exact decide_eq_true hlt
    rw [handleToken_expired v now tok t hv he]
    exact ⟨rfl, fun rsl l hl => rfl⟩
  · intro hn
    have he : isExpired now t = false := by
      unfold isExpired
      rw [hn]
    rw [handleToken_valid v now tok t hv he]
  · intro hn
    have he : isExpired now t = false := by
      unfold isExpired
      rw [hn]
    rw [handleToken_valid v now tok t hv he]
  · intro n hn hge
    have he : isExpired now t = false := by
      unfold isExpired
      rw [hn]
      exact decide_eq_false hge
    rw [handleToken_valid v now tok t hv he]

/-- Witness for C3: at time 10, a token with `not_after = 5` and granted
scope `calendar` is classified expired and denied, while at time 3 the same
token is valid and keeps its attributes. -/
theorem expiry_policy_witness :
    (middlewareAuth
      (fun _ => ValidatorOutcome.ok
        { scope := some "calendar", not_after := some (JsValue.num 5) })
      10 (AuthHeader.str "Bearer tok")).auth = errResult "token-expired" ∧
    (middlewareAuth
      (fun _ => ValidatorOutcome.ok
        { scope := some "calendar", not_after := some (JsValue.num 5) })
      3 (AuthHeader.str "Bearer tok")).auth =
      { scope := some "calendar", not_after := some (JsValue.num 5) } :=
  ⟨((expiry_policy
      (fun _ => ValidatorOutcome.ok
        { scope := some "calendar", not_after := some (JsValue.num 5) })
      10 { scope := some "calendar", not_after := some (JsValue.num 5) }
      (AuthHeader.str "Bearer tok") "tok" (by decide) rfl).1 5 rfl
      (by decide)).1,
   (expiry_policy
      (fun _ => ValidatorOutcome.ok
        { scope := some "calendar", not_after := some (JsValue.num 5) })
      3 { scope := some "calendar", not_after := some (JsValue.num 5) }
      (AuthHeader.str "Bearer tok") "tok" (by decide) rfl).2.2.2 5 rfl
      (by decide)⟩

/-- C4: when the validator rejects or throws, the middleware produces the
`invalid-token` authorization, logs the failure at error level, and — the
embedding being a total function — hands the request handler a usable
decision context with no exception escaping. -/
theorem validator_failure_invalid (v : String → ValidatorOutcome)
    (now : Int) (h : AuthHeader) (tok : String)
    (hx : extractCredential h = ExtractResult.token tok)
    (hv : v tok = ValidatorOutcome.fail) :
    (middlewareAuth v now h).auth = errResult "invalid-token" ∧
    (middlewareAuth v now h).errorLog = ["middleware: valid token"] := by
  rw [middlewareAuth_token v now h tok hx, handleToken_fail v now tok hv]
  exact ⟨rfl, rfl⟩

/-- Witness for C4: a failing validator on the header `Bearer t` yields the
`invalid-token` authorization. -/
theorem validator_failure_invalid_witness :
    (middlewareAuth (fun _ => ValidatorOutcome.fail) 0
      (AuthHeader.str "Bearer t")).auth = errResult "invalid-token" :=
  (validator_failure_invalid (fun _ => ValidatorOutcome.fail) 0
    (AuthHeader.str "Bearer t") "t" (by decide) rfl).1

/-- C5: `header()` always sets status 401; it sets `WWW-Authenticate` iff a
discovery URI is configured, and then the value is exactly
`Bearer realm=R, scope=S, webauthz_discovery_uri=D, path=P` with the realm,
the space-joined bound scope list, the discovery URI and the path each
percent-encoded independently; the example configuration of the spec
yields the example header value of the spec. -/
theorem header_challenge (cfg : Config) (rsl : List String) :
    (headerOp cfg rsl).1 = 401 ∧
    ((headerOp cfg rsl).2.isSome ↔ cfg.webauthz_discovery_uri.isSome) ∧
    (∀ d, cfg.webauthz_discovery_uri = some d →
      (headerOp cfg rsl).2 =
        some ("Bearer realm=" ++ encodeURIComponent cfg.realm ++
          ", scope=" ++ encodeURIComponent (jsJoinSpace rsl) ++
          ", webauthz_discovery_uri=" ++ encodeURIComponent d ++
          ", path=" ++ encodeURIComponent cfg.path)) ∧
    (cfg.webauthz_discovery_uri = none → (headerOp cfg rsl).2 = none) ∧
    (headerOp { realm := "Webauthz", path := "/api",
                webauthz_discovery_uri := some "https://x/d.json" }
      ["a", "b"]).2 =
      some "Bearer realm=Webauthz, scope=a%20b, webauthz_discovery_uri=https%3A%2F%2Fx%2Fd.json, path=%2Fapi" := by
  refine ⟨rfl, ?_, ?_, ?_, by decide⟩
  · cases hd : cfg.webauthz_discovery_uri <;> simp [headerOp, hd]
  · intro d hd
    simp [headerOp, hd]
  · intro hd
    simp [headerOp, hd]

/-- Witness for C5: with no discovery URI configured the builder sets
status 401 and no header; with the example configuration it produces the
example header value. -/
theorem header_challenge_witness :
    (headerOp { realm := "Webauthz", path := "/", webauthz_discovery_uri := none } ["a"]).1 = 401 ∧
    (headerOp { realm := "Webauthz", path := "/", webauthz_discovery_uri := none } ["a"]).2 = none ∧
    (headerOp { realm := "Webauthz", path := "/api",
                webauthz_discovery_uri := some "https://x/d.json" }
      ["a", "b"]).2 =
      some "Bearer realm=Webauthz, scope=a%20b, webauthz_discovery_uri=https%3A%2F%2Fx%2Fd.json, path=%2Fapi" :=
  ⟨(header_challenge { realm := "Webauthz", path := "/", webauthz_discovery_uri := none } ["a"]).1,
   (header_challenge { realm := "Webauthz", path := "/", webauthz_discovery_uri := none } ["a"]).2.2.2.1 rfl,
   (header_challenge { realm := "Webauthz", path := "/", webauthz_discovery_uri := none } ["a"]).2.2.2.2⟩

/-- C6: the header is classified into exactly three outcomes — absent or
non-string headers give the `authorization-header-not-found` result, string
headers not starting case-insensitively with `bearer ` give the
`authorization-header-not-bearer` result, and otherwise the candidate token
is the header after the 7-character scheme prefix with surrounding
whitespace trimmed, so `Bearer   abc123  ` passes exactly `abc123` to the
validator. -/
theorem credential_classification :
    extractCredential AuthHeader.missing = ExtractResult.absent ∧
    extractCredential AuthHeader.nonString = ExtractResult.absent ∧
    (∀ v now,
      (middlewareAuth v now AuthHeader.missing).auth =
        errResult "authorization-header-not-found" ∧
      (middlewareAuth v now AuthHeader.nonString).auth =
        errResult "authorization-header-not-found") ∧
    (∀ s, jsStartsWith (jsToLower s) "bearer " = false →
      extractCredential (AuthHeader.str s) = ExtractResult.malformed ∧
      ∀ v now, (middlewareAuth v now (AuthHeader.str s)).auth =
        errResult "authorization-header-not-bearer") ∧
    (∀ s, jsStartsWith (jsToLower s) "bearer " = true →
      extractCredential (AuthHeader.str s) =
        ExtractResult.token (jsTrim (jsSubstrFrom s 7))) ∧
    (∀ v now,
      (middlewareAuth v now
        (AuthHeader.str "Bearer   abc123  ")).checkTokenCalls =
      ["abc123"]) := by
  refine ⟨rfl, rfl, fun v now => ⟨rfl, rfl⟩, ?_, ?_, ?_⟩
  · intro s hs
    constructor
    · simp [extractCredential, hs]
    · intro v now
      simp [middlewareAuth, extractCredential, hs]
  · intro s hs
    simp [extractCredential, hs]
    rfl
  · intro v now
    rw [middlewareAuth_token v now (AuthHeader.str "Bearer   abc123  ")
      "abc123" (by decide)]
    unfold handleToken
    cases hv : v "abc123" with
    | ok t => cases he : isExpired now t <;> simp [he]
    | fail => rfl

/-- Witness for C6: the header `Basic xyz` is classified malformed, and the
header `Bearer   abc123  ` passes exactly the token `abc123` to the
validator. -/
theorem credential_classification_witness :
    extractCredential (AuthHeader.str "Basic xyz") =
      ExtractResult.malformed ∧
    (middlewareAuth (fun _ => ValidatorOutcome.fail) 0
      (AuthHeader.str "Bearer   abc123  ")).checkTokenCalls = ["abc123"] :=
  ⟨(credential_classification.2.2.2.1 "Basic xyz" (by decide)).1,
   credential_classification.2.2.2.2.2 (fun _ => ValidatorOutcome.fail) 0⟩

/-- C7: a request without an `Authorization` header yields the
`authorization-header-not-found` decision context with no scope and no
identity attributes, and `isPermitted` with any non-empty check-list
returns false. -/
theorem absent_header_denied (v : String → ValidatorOutcome) (now : Int)
    (rsl l : List String) (hl : l ≠ []) :
    (middlewareAuth v now AuthHeader.missing).auth =
      errResult "authorization-header-not-found" ∧
    (middlewareAuth v now AuthHeader.missing).auth.scope = none ∧
    (middlewareAuth v now AuthHeader.missing).auth.client_id = none ∧
    (middlewareAuth v now AuthHeader.missing).auth.user_id = none ∧
    isPermitted rsl (middlewareAuth v now AuthHeader.missing).auth l =
      false :=
  ⟨rfl, rfl, rfl, rfl, rfl⟩

/-- Witness for C7: with no header and check-list `calendar`, the decision
context denies access. -/
theorem absent_header_denied_witness :
    isPermitted ["x"]
      ((middlewareAuth (fun _ => ValidatorOutcome.fail) 0
        AuthHeader.missing).auth) ["calendar"] = false :=
  (absent_header_denied (fun _ => ValidatorOutcome.fail) 0 ["x"]
    ["calendar"] (by decide)).2.2.2.2

/-- C8: per request the validator is invoked at most once and never
retried — exactly once when extraction yields a candidate token, zero times
when the classification is absent or malformed. -/
theorem checkToken_called_once (v : String → ValidatorOutcome) (now : Int)
    (h : AuthHeader) :
    (middlewareAuth v now h).checkTokenCalls.length ≤ 1 ∧
    (∀ tok, extractCredential h = ExtractResult.token tok →
      (middlewareAuth v now h).checkTokenCalls = [tok]) ∧
    (extractCredential h = ExtractResult.absent →
      (middlewareAuth v now h).checkTokenCalls = []) ∧
    (extractCredential h = ExtractResult.malformed →
      (middlewareAuth v now h).checkTokenCalls = []) := by
  unfold middlewareAuth
  cases hx : extractCredential h with
  | absent => simp
  | malformed => simp
  | token tokenInput =>
      have hcalls : (handleToken v now tokenInput).checkTokenCalls =
          [tokenInput] := by
        unfold handleToken
        cases hv : v tokenInput with
        | ok t => cases he : isExpired now t <;> simp [he]
        | fail => rfl
      refine ⟨?_, ?_, ?_, ?_⟩
      · show (handleToken v now tokenInput).checkTokenCalls.length ≤ 1
        rw [hcalls]
        simp
      · intro tok htok
        cases htok
        exact hcalls
      · intro hc
        cases hc
      · intro hc
        cases hc

/-- Witness for C8: with the header `Bearer t` the validator is called
once, on `t`; with no header it is not called. -/
theorem checkToken_called_once_witness :
    (middlewareAuth (fun _ => ValidatorOutcome.fail) 0
      (AuthHeader.str "Bearer t")).checkTokenCalls = ["t"] ∧
    (middlewareAuth (fun _ => ValidatorOutcome.fail) 0
      AuthHeader.missing).checkTokenCalls = [] :=
  ⟨(checkToken_called_once (fun _ => ValidatorOutcome.fail) 0
      (AuthHeader.str "Bearer t")).2.1 "t" (by decide),
   (checkToken_called_once (fun _ => ValidatorOutcome.fail) 0
      AuthHeader.missing).2.2.1 rfl⟩

/-- C9: when the validator succeeds but the token is expired, every token
attribute is discarded: the decision context carries only
`error = token-expired`, with `type`, `client_id`, `realm`, `scope`,
`not_after` and `user_id` all absent — including `not_after` itself. -/
theorem expired_attributes_discarded (v : String → ValidatorOutcome)
    (now : Int) (t : TokenInfo) (h : AuthHeader) (tok : String) (n : Int)
    (hx : extractCredential h = ExtractResult.token tok)
    (hv : v tok = ValidatorOutcome.ok t)
    (hn : t.not_after = some (JsValue.num n)) (hlt : n < now) :
    (middlewareAuth v now h).auth.error = some "token-expired" ∧
    (middlewareAuth v now h).auth.type = none ∧
    (middlewareAuth v now h).auth.client_id = none ∧
    (middlewareAuth v now h).auth.realm = none ∧
    (middlewareAuth v now h).auth.scope = none ∧
    (middlewareAuth v now h).auth.not_after = none ∧
    (middlewareAuth v now h).auth.user_id = none := by
  have he : isExpired now t = true := by
    unfold isExpired
    rw [hn]
    exact decide_eq_true hlt
  rw [middlewareAuth_token v now h tok hx,
    handleToken_expired v now tok t hv he]
  exact ⟨rfl, rfl, rfl, rfl, rfl, rfl, rfl⟩

/-- Witness for C9: an expired token that nominally carried every
attribute reaches the handler with all attributes absent except the
`token-expired` error. -/
theorem expired_attributes_discarded_witness :
    (middlewareAuth
      (fun _ => ValidatorOutcome.ok
        { type := some "access", client_id := some "c", realm := some "r",
          scope := some "calendar", not_after := some (JsValue.num 5),
          user_id := some "u" })
      10 (AuthHeader.str "Bearer tok")).auth.not_after = none :=
  (expired_attributes_discarded
    (fun _ => ValidatorOutcome.ok
      { type := some "access", client_id := some "c", realm := some "r",
        scope := some "calendar", not_after := some (JsValue.num 5),
        user_id := some "u" })
    10
    { type := some "access", client_id := some "c", realm := some "r",
      scope := some "calendar", not_after := some (JsValue.num 5),
      user_id := some "u" }
    (AuthHeader.str "Bearer tok") "tok" 5 (by decide) rfl rfl
    (by decide)).2.2.2.2.2.1

/-- C10: `isPermitted` returns false for every check-list — the empty one
included — whenever the authorization has no granted scope string or an
empty one; so with nothing bound and no arguments it can only return true
when a non-empty scope string is present. -/
theorem isPermitted_requires_scope :
    (∀ (rsl l : List String) (auth : TokenInfo),
      auth.scope = none ∨ auth.scope = some "" →
      isPermitted rsl auth l = false) ∧
    (∀ auth : TokenInfo, isPermitted [] auth [] = true →
      auth.scope ≠ none ∧ auth.scope ≠ some "") := by
  constructor
  · rintro rsl l auth (hs | hs) <;> simp [isPermitted, hs]
  · intro auth hp
    cases hs : auth.scope with
    | none => simp [isPermitted, hs] at hp
    | some s =>
        by_cases h0 : s = ""
        · subst h0
          simp [isPermitted, hs] at hp
        · constructor
          · intro hc
            cases hc
          · intro hc
            cases hc
            exact absurd rfl h0

/-- Witness for C10: with an empty granted scope string even the empty
check-list is denied. -/
theorem isPermitted_requires_scope_witness :
    isPermitted [] { scope := some "" } [] = false :=
  isPermitted_requires_scope.1 [] [] { scope := some "" } (Or.inr rfl)
